import Mathlib

/-!
Verification of the result-handoff core of the coio coroutine runtime
(`src/join_handle.rs`, `src/promise.rs`), a one-shot sender/receiver pair
over a single-notification barrier, plus the promise combinator layer.

The barrier (`sync::mono_barrier::MonoBarrier`) and the scheduler
(`Scheduler::spawn`, `JoinHandle::join`) are collaborators whose sources are
not part of the handoff layer; they are modelled from their contracts in the
specification (§4.1, §6) and marked `Modelled from the spec:` below.
Everything else is embedded directly from the Rust source.
-/

namespace Coio

/-- `std::thread::Result<T>`: either a normal return value or a captured
abnormal termination (panic) of the spawned work.  The panic payload
(`Box<dyn Any>`) is opaque, so it is not carried here. -/
inductive Outcome (T : Type) where
  | success : T → Outcome T
  | panicked : Outcome T
  deriving DecidableEq, Repr

/-- Rust `Result<T, E>`, the business-logic channel of the promise layer. -/
inductive RustResult (T E : Type) where
  | Ok : T → RustResult T E
  | Err : E → RustResult T E
  deriving DecidableEq, Repr

/-- Modelled from the spec: the state of a `MonoBarrier`
(`sync/mono_barrier.rs` is not part of the handoff sources).  §4.1: a
one-shot wake gate; it is `pending` until `notify`, `notified` afterwards,
and `broken` when the notifier was destroyed without ever notifying. -/
inductive BarrierState where
  | pending : BarrierState
  | notified : BarrierState
  | broken : BarrierState
  deriving DecidableEq, Repr

namespace MonoBarrier

/-- Modelled from the spec: `MonoBarrier::new()` starts with nobody having
notified. -/
def new : BarrierState := .pending

/-- Modelled from the spec: `MonoBarrier::notify()` wakes every current and
future waiter; the handoff protocol calls it at most once per barrier
(§4.1). -/
def notify (_ : BarrierState) : BarrierState := .notified

/-- Modelled from the spec: `MonoBarrier::wait()`.  `none` means the caller
suspends (barrier still pending); once notified it returns successfully
every time; a broken barrier (notifier destroyed without notifying) yields
an error value (§4.1). -/
def wait : BarrierState → Option (Except Unit Unit)
  | .pending => none
  | .notified => some (.ok ())
  | .broken => some (.error ())

/-- The three caller-visible behaviors of `barrier.wait().unwrap()`, the
exact expression used by both `pop` and the receiver's `drop`. -/
inductive WaitUnwrap where
  | blocks : WaitUnwrap
  | proceeds : WaitUnwrap
  | panics : WaitUnwrap
  deriving DecidableEq, Repr

/-- `self.inner.barrier.wait().unwrap()`: suspends while pending, proceeds
once notified, panics (the `unwrap`) on a broken barrier. -/
def waitUnwrap : BarrierState → WaitUnwrap
  | .pending => .blocks
  | .notified => .proceeds
  | .broken => .panics

/-- `waitUnwrap` is exactly `wait` followed by `unwrap`. -/
theorem waitUnwrap_eq_wait (b : BarrierState) :
    waitUnwrap b = match wait b with
      | none => .blocks
      | some (.ok _) => .proceeds
      | some (.error _) => .panics := by
  cases b <;> rfl

end MonoBarrier

/-- `JoinHandleInner<'scope, T>` (join_handle.rs:16-20): the shared result
cell, a barrier plus an unsynchronized slot `data: Option<thread::Result<T>>`.
The `scope: PhantomData` lifetime marker carries no runtime state and is
omitted. -/
structure JoinHandleInner (T : Type) where
  barrier : BarrierState
  data : Option (Outcome T)
  deriving DecidableEq, Repr

/-- `JoinHandleInner::new()` (join_handle.rs:26-32): fresh barrier, empty
slot. -/
def JoinHandleInner.new (T : Type) : JoinHandleInner T :=
  { barrier := MonoBarrier.new, data := none }

/-- The first statement of `push` (join_handle.rs:41-42):
`*data = Some(result)` through the `UnsafeCell`. -/
def writeData (result : Outcome T) (inner : JoinHandleInner T) :
    JoinHandleInner T :=
  { inner with data := some result }

/-- The second statement of `push` (join_handle.rs:43):
`self.inner.barrier.notify()`. -/
def notifyBarrier (inner : JoinHandleInner T) : JoinHandleInner T :=
  { inner with barrier := MonoBarrier.notify inner.barrier }

/-- `JoinHandleSender::push` (join_handle.rs:40-44): store the result into
the slot, then notify the barrier.  The sender itself carries no state
beyond its reference to `inner`; consumption of the sender is tracked in
the pair-state semantics below. -/
def JoinHandleSender.push (result : Outcome T) (inner : JoinHandleInner T) :
    JoinHandleInner T :=
  notifyBarrier (writeData result inner)

/-- `JoinHandleReceiver<'scope, T>` (join_handle.rs:47-50), minus the shared
`inner` (passed explicitly): just the `received` flag. -/
structure JoinHandleReceiver where
  received : Bool
  deriving DecidableEq, Repr

/-- The caller-visible result of `JoinHandleReceiver::pop`
(join_handle.rs:53-58).  `ok` carries the returned outcome, the consumed
receiver, and the cell after `data.take()`; `blocked` means the wait
suspended; the two panic constructors are the two `unwrap` sites:
`wait().unwrap()` on a broken barrier and `take().unwrap()` on an empty
slot. -/
inductive PopResult (T : Type) where
  | ok : Outcome T → JoinHandleReceiver → JoinHandleInner T → PopResult T
  | blocked : PopResult T
  | panicWaitBroken : PopResult T
  | panicEmptySlot : PopResult T
  deriving DecidableEq, Repr

/-- `JoinHandleReceiver::pop` (join_handle.rs:53-58):
`self.inner.barrier.wait().unwrap()`, then `self.received = true`, then
`data.take().unwrap()`. -/
def JoinHandleReceiver.pop (self : JoinHandleReceiver)
    (inner : JoinHandleInner T) : PopResult T :=
  match MonoBarrier.waitUnwrap inner.barrier with
  | .blocks => .blocked
  | .panics => .panicWaitBroken
  | .proceeds =>
    match inner.data with
    | none => .panicEmptySlot
    | some r => .ok r { self with received := true } { inner with data := none }

/-- The caller-visible result of dropping a `JoinHandleReceiver`
(join_handle.rs:61-68).  The drop never reads the slot, so it returns no
value: it completes, suspends, or panics at `wait().unwrap()`. -/
inductive DropResult where
  | done : DropResult
  | blocked : DropResult
  | panicWaitBroken : DropResult
  deriving DecidableEq, Repr

/-- `impl Drop for JoinHandleReceiver` (join_handle.rs:61-68): if the value
was never received, perform `self.inner.barrier.wait().unwrap()`; otherwise
do nothing. -/
def JoinHandleReceiver.dropRecv (self : JoinHandleReceiver)
    (inner : JoinHandleInner T) : DropResult :=
  if self.received then .done
  else
    match MonoBarrier.waitUnwrap inner.barrier with
    | .blocks => .blocked
    | .panics => .panicWaitBroken
    | .proceeds => .done

/-- `handle_pair` (join_handle.rs:70-80): one fresh shared cell, a sender
(implicit: it is live), and a receiver with `received: false`. -/
def handle_pair (T : Type) : JoinHandleInner T × JoinHandleReceiver :=
  (JoinHandleInner.new T, { received := false })

/-!
Interleaving semantics of one handle pair.  A `PairState` is the shared
cell together with the liveness of the two single-use ends; an `Op` is one
completed operation by one end.  `step` returns `none` when the operation
is not enabled (the end was already consumed, the wait would suspend, or an
`unwrap` would panic), so `run` only follows executions the code can
complete.
-/

/-- Joint state of one `handle_pair`: the shared cell, whether the sender
capability is still unconsumed, and the receiver capability while it is
alive (`none` after `pop` or `drop`). -/
structure PairState (T : Type) where
  inner : JoinHandleInner T
  senderLive : Bool
  receiver : Option JoinHandleReceiver
  deriving DecidableEq, Repr

/-- The state produced by `handle_pair` (join_handle.rs:70-80): fresh cell,
both ends live, `received: false`. -/
def initPair (T : Type) : PairState T :=
  { inner := (handle_pair T).1, senderLive := true,
    receiver := some (handle_pair T).2 }

/-- The operations a pair's two ends can complete. -/
inductive Op (T : Type) where
  | push : Outcome T → Op T
  | senderDrop : Op T
  | pop : Op T
  | receiverDrop : Op T
  deriving DecidableEq, Repr

/-- Modelled from the spec: the effect on the barrier of destroying the
sender without pushing — §4.1, the barrier signals a broken wait when "the
paired notifier was destroyed without ever notifying". -/
def senderDropEffect (inner : JoinHandleInner T) : JoinHandleInner T :=
  if inner.barrier = .pending then { inner with barrier := .broken } else inner

/-- One completed operation.  `push`/`senderDrop` require the sender to be
live and consume it (they take `self`); `pop`/`receiverDrop` require the
receiver to be live and consume it, and complete only when they neither
suspend nor panic. -/
def step (s : PairState T) : Op T → Option (PairState T)
  | .push r =>
    if s.senderLive then
      some { s with inner := JoinHandleSender.push r s.inner,
                    senderLive := false }
    else none
  | .senderDrop =>
    if s.senderLive then
      some { s with inner := senderDropEffect s.inner, senderLive := false }
    else none
  | .pop =>
    match s.receiver with
    | none => none
    | some rcv =>
      match rcv.pop s.inner with
      | .ok _ _ inner' => some { s with inner := inner', receiver := none }
      | _ => none
  | .receiverDrop =>
    match s.receiver with
    | none => none
    | some rcv =>
      match rcv.dropRecv s.inner with
      | .done => some { s with receiver := none }
      | _ => none

/-- Run a sequence of operations; `none` if any of them cannot complete. -/
def run (s : PairState T) : List (Op T) → Option (PairState T)
  | [] => some s
  | op :: ops =>
    match step s op with
    | some s' => run s' ops
    | none => none

/-- The states visited by a sequence of operations, including the start
state, cut short at the first operation that cannot complete. -/
def statesAlong (s : PairState T) : List (Op T) → List (PairState T)
  | [] => [s]
  | op :: ops =>
    match step s op with
    | some s' => s :: statesAlong s' ops
    | none => [s]

/-- A state is reachable when some completed execution from the fresh pair
ends in it. -/
def Reachable (s : PairState T) : Prop :=
  ∃ ops : List (Op T), run (initPair T) ops = some s

/-- The protocol invariant of a handle pair: while the sender is unconsumed
the cell is untouched; a live receiver has not received; and a notified
barrier means the pushed value is still in the slot unless the receiver was
already consumed (by the `pop` that took it or by a drop, which leaves the
slot alone). -/
def Inv (s : PairState T) : Prop :=
  (s.senderLive = true → s.inner.barrier = .pending ∧ s.inner.data = none) ∧
  (∀ rcv, s.receiver = some rcv → rcv.received = false) ∧
  (s.inner.barrier = .notified → s.inner.data.isSome ∨ s.receiver = none)

theorem inv_init : Inv (initPair T) := by
  refine ⟨fun _ => ⟨rfl, rfl⟩, ?_, ?_⟩
  · intro rcv h
    simp [initPair, handle_pair] at h
    simp [← h]
  · intro h
    simp [initPair, handle_pair, JoinHandleInner.new, MonoBarrier.new] at h

theorem inv_step (s : PairState T) (op : Op T) (s' : PairState T)
    (hinv : Inv s) (h : step s op = some s') : Inv s' := by
  obtain ⟨hs, hr, hn⟩ := hinv
  cases op with
  | push r =>
    simp only [step] at h
    by_cases hl : s.senderLive = true
    · simp [hl] at h
      subst h
      refine ⟨by simp, ?_, ?_⟩
      · intro rcv hrcv
        exact hr rcv hrcv
      · intro _
        simp [JoinHandleSender.push, writeData, notifyBarrier]
    · simp at h
      exact absurd h.1 hl
  | senderDrop =>
    simp only [step] at h
    by_cases hl : s.senderLive = true
    · simp [hl] at h
      subst h
      obtain ⟨hb, hd⟩ := hs hl
      refine ⟨by simp, fun rcv hrcv => hr rcv hrcv, ?_⟩
      · intro hnn
        simp [senderDropEffect, hb] at hnn
    · simp at h
      exact absurd h.1 hl
  | pop =>
    simp only [step] at h
    cases hrc : s.receiver with
    | none => simp [hrc] at h
    | some rcv =>
      simp only [hrc] at h
      cases hp : rcv.pop s.inner with
      | ok o rcv' inner' =>
        simp [hp] at h
        subst h
        unfold JoinHandleReceiver.pop at hp
        cases hb : MonoBarrier.waitUnwrap s.inner.barrier <;> simp [hb] at hp
        cases hd : s.inner.data <;> simp [hd] at hp
        obtain ⟨_, _, hi⟩ := hp
        refine ⟨?_, by simp, ?_⟩
        · intro hl
          obtain ⟨_, hd0⟩ := hs hl
          simp [hd0] at hd
        · intro _
          simp
      | blocked => simp [hp] at h
      | panicWaitBroken => simp [hp] at h
      | panicEmptySlot => simp [hp] at h
  | receiverDrop =>
    simp only [step] at h
    cases hrc : s.receiver with
    | none => simp [hrc] at h
    | some rcv =>
      simp only [hrc] at h
      cases hp : rcv.dropRecv s.inner with
      | done =>
        simp [hp] at h
        subst h
        refine ⟨fun hl => hs hl, by simp, fun _ => Or.inr rfl⟩
      | blocked => simp [hp] at h
      | panicWaitBroken => simp [hp] at h

theorem inv_run (ops : List (Op T)) :
    ∀ s s' : PairState T, Inv s → run s ops = some s' → Inv s' := by
  induction ops with
  | nil =>
    intro s s' hinv h
    simp [run] at h
    exact h ▸ hinv
  | cons op ops ih =>
    intro s s' hinv h
    simp only [run] at h
    cases hst : step s op with
    | none => simp [hst] at h
    | some s1 =>
      simp [hst] at h
      exact ih s1 s' (inv_step s op s1 hinv hst) h

theorem inv_reachable (s : PairState T) (h : Reachable s) : Inv s := by
  obtain ⟨ops, hops⟩ := h
  exact inv_run ops _ s inv_init hops

/-!
The promise layer (promise.rs).  The scheduler (`Scheduler::spawn`,
`JoinHandle::join`, scheduler.rs) is not among the handoff sources, so it
is modelled from its contract in the spec (§6): `spawn(f)` returns a handle
and a blocking `join` on that handle returns the captured outcome of the
spawned work — the returned value, or the captured panic.
-/

/-- How a computation finishes in the execution context that runs it:
it returns a value, or it panics (abnormal termination). -/
inductive Exec (A : Type) where
  | returns : A → Exec A
  | panics : Exec A
  deriving DecidableEq, Repr

/-- Apply a plain function to the result of a computation; a panic
propagates past it. -/
def Exec.map (f : A → B) : Exec A → Exec B
  | .returns a => .returns (f a)
  | .panics => .panics

/-- Modelled from the spec: a scheduler `JoinHandle<R>` (scheduler.rs is
not among the handoff sources), abstracted to the outcome its blocking
`join` eventually delivers (§6). -/
structure JoinHandle (R : Type) where
  outcome : Outcome R
  deriving DecidableEq, Repr

/-- Modelled from the spec: `JoinHandle::join` blocks and returns the
captured outcome of the spawned work (§6). -/
def JoinHandle.join (h : JoinHandle R) : Outcome R := h.outcome

/-- Modelled from the spec: `Scheduler::spawn` runs its closure in new
spawned work, capturing a panic of the closure into the handle's outcome
rather than letting it escape (§6, §9). -/
def Scheduler.spawn (body : Exec R) : JoinHandle R :=
  { outcome :=
      match body with
      | .returns r => .success r
      | .panics => .panicked }

/-- `self.join_handle.join().unwrap()`, the expression at promise.rs:43 and
at the head of every combinator body: a captured panic of the predecessor
is re-raised in the calling context, otherwise the value is returned. -/
def joinUnwrapExec (h : JoinHandle R) : Exec R :=
  match h.join with
  | .success r => .returns r
  | .panicked => .panics

/-- `Promise<'scope, T, E>` (promise.rs:16-21): a wrapper around the join
handle for `Result<T, E>`. -/
structure Promise (T E : Type) where
  join_handle : JoinHandle (RustResult T E)
  deriving DecidableEq, Repr

/-- `Promise::sync` (promise.rs:42-44): `self.join_handle.join().unwrap()`. -/
def Promise.sync (p : Promise T E) : Exec (RustResult T E) :=
  joinUnwrapExec p.join_handle

/-- `Promise::then` (promise.rs:47-61); `then` is a Lean keyword, hence the
underscore.  Spawns a body that joins the predecessor (panic re-raised,
then captured by the spawn boundary) and routes `Ok` through `ft`, `Err`
through `fe`.  The second component counts the `Scheduler::spawn` calls the
operation performs: exactly one. -/
def Promise.then_ (p : Promise T E) (ft : T → RustResult TT EE)
    (fe : E → RustResult TT EE) : Promise TT EE × Nat :=
  (⟨Scheduler.spawn
      (match joinUnwrapExec p.join_handle with
       | .panics => .panics
       | .returns (.Ok t) => .returns (ft t)
       | .returns (.Err e) => .returns (fe e))⟩, 1)

/-- `Promise::chain` (promise.rs:64-72): the spawned body applies `f` to
the whole `Result`. -/
def Promise.chain (p : Promise T E) (f : RustResult T E → RustResult TT EE) :
    Promise TT EE × Nat :=
  (⟨Scheduler.spawn (Exec.map f (joinUnwrapExec p.join_handle))⟩, 1)

/-- `Promise::success` (promise.rs:75-87): the spawned body runs `f` only
on `Ok`; an `Err` passes through unchanged. -/
def Promise.success (p : Promise T E) (f : T → RustResult TT E) :
    Promise TT E × Nat :=
  (⟨Scheduler.spawn
      (match joinUnwrapExec p.join_handle with
       | .panics => .panics
       | .returns (.Ok t) => .returns (f t)
       | .returns (.Err e) => .returns (.Err e))⟩, 1)

/-- `Promise::fail` (promise.rs:90-101): the spawned body runs `f` only on
`Err`; an `Ok` passes through unchanged. -/
def Promise.fail (p : Promise T E) (f : E → RustResult T E) :
    Promise T E × Nat :=
  (⟨Scheduler.spawn
      (match joinUnwrapExec p.join_handle with
       | .panics => .panics
       | .returns (.Ok t) => .returns (.Ok t)
       | .returns (.Err e) => .returns (f e))⟩, 1)

/-- `Promise::finally` (promise.rs:104-108); `finally` is a Lean keyword,
hence the underscore.  Spawns a body that joins the predecessor and runs
`f` for its side effect; the returned handle is the temporary the call
site immediately discards (its blocking discard is the `Finally` system
below).  One `Scheduler::spawn` call. -/
def Promise.finally_ (p : Promise T E) (f : RustResult T E → Unit) :
    JoinHandle Unit × Nat :=
  (Scheduler.spawn (Exec.map f (joinUnwrapExec p.join_handle)), 1)

/-- `Promise::finally_sync` (promise.rs:111-115): `f(self.sync())` in the
caller's own context — a panic re-raised by `sync` aborts the caller before
`f` runs.  The source fixes `F: FnOnce(Result<T, E>)` returning unit; the
result type is kept general here so the value `f` computes is observable.
No `Scheduler::spawn` call occurs in the body: the count is zero. -/
def Promise.finally_sync (p : Promise T E) (f : RustResult T E → A) :
    Exec A × Nat :=
  (match p.sync with
   | .returns r => .returns (f r)
   | .panics => .panics, 0)

/-- The spec's own words for `finally_sync` (§4.3): "Equivalent to
`f(self.sync())` — executes `f` in the *caller's* context, no new work
spawned."  Stated as direct application of `f` under the caller's
execution, with zero spawned units. -/
def finallySyncSpecModel (p : Promise T E) (f : RustResult T E → A) :
    Exec A × Nat :=
  (Exec.map f p.sync, 0)

/-!
`Promise::finally` blocks its call site (promise.rs:107 together with the
receiver drop, join_handle.rs:61-68): the handle returned by
`Scheduler::spawn` is a temporary discarded at the end of the statement,
and its discard waits on the barrier.  The interleaving of the spawned work
with the discarding caller is modelled as a two-process system: the work
joins the predecessor and runs `f` (`runF`), then the spawn boundary pushes
its result and notifies the barrier (`pushNotify`, modelled from the spec,
§6/§9: the spawn boundary captures the outcome and delivers it through the
handle); the caller's discard returns (`dropReturns`) only when the wait on
that barrier proceeds.
-/

namespace Finally

/-- Progress of the spawned body of `finally`: before `f` has completed,
after `f` but before the boundary pushed, and pushed-and-notified. -/
inductive WorkPhase where
  | beforeF : WorkPhase
  | afterF : WorkPhase
  | pushed : WorkPhase
  deriving DecidableEq, Repr

/-- Progress of the call site: inside the discarding drop, or past it. -/
inductive CallerPhase where
  | dropping : CallerPhase
  | returned : CallerPhase
  deriving DecidableEq, Repr

/-- Joint state of the spawned work and the discarding call site. -/
structure State where
  work : WorkPhase
  caller : CallerPhase
  deriving DecidableEq, Repr

/-- At the `finally` call: work not yet run, caller inside the discard. -/
def init : State := { work := .beforeF, caller := .dropping }

/-- The barrier of the discarded handle as the work progresses: notified
exactly by the boundary's push (join_handle.rs:40-44). -/
def barrierOf : WorkPhase → BarrierState
  | .pushed => .notified
  | _ => .pending

/-- The atomic transitions of the two processes. -/
inductive Label where
  | runF : Label
  | pushNotify : Label
  | dropReturns : Label
  deriving DecidableEq, Repr

/-- One transition: the work runs `f`, the work's boundary pushes and
notifies, or the caller's discarding drop completes — the last only when
`wait().unwrap()` on the handle's barrier proceeds (join_handle.rs:61-68,
the discarded receiver was never popped). -/
def stepF (s : State) : Label → Option State
  | .runF =>
    if s.work = .beforeF then some { s with work := .afterF } else none
  | .pushNotify =>
    if s.work = .afterF then some { s with work := .pushed } else none
  | .dropReturns =>
    if s.caller = .dropping then
      match MonoBarrier.waitUnwrap (barrierOf s.work) with
      | .proceeds => some { s with caller := .returned }
      | _ => none
    else none

/-- Run a sequence of transitions from a state; `none` when one of them is
not enabled. -/
def exec (s : State) : List Label → Option State
  | [] => some s
  | l :: ls =>
    match stepF s l with
    | some s' => exec s' ls
    | none => none

theorem exec_inv (ls : List Label) :
    ∀ s s' : State, (s.caller = .returned → s.work = .pushed) →
      exec s ls = some s' → (s'.caller = .returned → s'.work = .pushed) := by
  induction ls with
  | nil =>
    intro s s' hJ h
    simp [exec] at h
    exact h ▸ hJ
  | cons l ls ih =>
    intro s s' hJ h
    simp only [exec] at h
    cases hst : stepF s l with
    | none => simp [hst] at h
    | some s1 =>
      simp [hst] at h
      refine ih s1 s' ?_ h
      cases l with
      | runF =>
        simp only [stepF] at hst
        by_cases hw : s.work = .beforeF
        · simp [hw] at hst
          intro hc
          rw [← hst] at hc
          simp at hc
          exact absurd (hw ▸ hJ hc) (by simp [hw])
        · simp [hw] at hst
      | pushNotify =>
        simp only [stepF] at hst
        by_cases hw : s.work = .afterF
        · simp [hw] at hst
          intro _
          rw [← hst]
        · simp [hw] at hst
      | dropReturns =>
        simp only [stepF] at hst
        by_cases hc : s.caller = .dropping
        · simp [hc] at hst
          cases hwu : MonoBarrier.waitUnwrap (barrierOf s.work) <;>
            simp [hwu] at hst
          intro _
          rw [← hst]
          cases hw : s.work <;> simp [hw, barrierOf, MonoBarrier.waitUnwrap] at hwu ⊢
        · simp [hc] at hst

end Finally

/-- Checks that along a list of pair states the slot never goes from
occupied back to empty between consecutive states. -/
def slotMonotone : List (PairState T) → Bool
  | a :: b :: rest =>
    (!a.inner.data.isSome || b.inner.data.isSome) && slotMonotone (b :: rest)
  | _ => true

/-!  The claims.  -/

/-- C1: `Sender::push` consumes the sender and its effect is exactly the
write of the outcome into the slot followed by the barrier notify: push is
the composition of the two statements at join_handle.rs:42 and :43, the
intermediate state after the write already holds `some result` with the
barrier untouched, the notify leaves the slot untouched, and a completed
push step requires a live sender and leaves it consumed. -/
theorem claim_C1_push_write_precedes_notify (T : Type)
    (inner : JoinHandleInner T) (result : Outcome T) (s s' : PairState T)
    (h : step s (.push result) = some s') :
    JoinHandleSender.push result inner = notifyBarrier (writeData result inner) ∧
    (writeData result inner).data = some result ∧
    (writeData result inner).barrier = inner.barrier ∧
    (notifyBarrier (writeData result inner)).data = some result ∧
    (JoinHandleSender.push result inner).barrier = .notified ∧
    s.senderLive = true ∧ s'.senderLive = false ∧
    s'.inner = JoinHandleSender.push result s.inner := by
  simp only [step] at h
  by_cases hl : s.senderLive = true
  · simp [hl] at h
    refine ⟨rfl, rfl, rfl, rfl, rfl, hl, ?_, ?_⟩
    · rw [← h]
    · rw [← h]
  · simp at h
    exact absurd h.1 hl

theorem claim_C1_witness :
    step (initPair Nat) (.push (.success 0)) =
      some { inner := { barrier := .notified, data := some (.success 0) },
             senderLive := false, receiver := some { received := false } } ∧
    ({ inner := { barrier := .notified, data := some (.success 0) },
       senderLive := false, receiver := some { received := false } }
        : PairState Nat).senderLive = false :=
  ⟨by decide,
   (claim_C1_push_write_precedes_notify Nat
      { barrier := .pending, data := none } (.success 0) (initPair Nat) _
      (by decide)).2.2.2.2.2.2.1⟩

/-- C2: dropping a never-popped receiver performs exactly the barrier wait
that `pop` would perform (it completes exactly when the wait proceeds,
suspends exactly when pop would suspend, panics exactly when pop's wait
would panic), while a receiver whose flag is set performs no wait at all
(it completes even on a pending barrier, where a wait would suspend); the
drop discards the value: a completed drop step leaves the cell untouched
and only consumes the receiver. -/
theorem claim_C2_drop_waits_like_pop (T : Type) (rcv : JoinHandleReceiver)
    (inner : JoinHandleInner T) :
    (rcv.received = false →
      (rcv.dropRecv inner = .done ↔
        MonoBarrier.waitUnwrap inner.barrier = .proceeds) ∧
      (rcv.dropRecv inner = .blocked ↔ rcv.pop inner = .blocked) ∧
      (rcv.dropRecv inner = .panicWaitBroken ↔
        rcv.pop inner = .panicWaitBroken)) ∧
    (rcv.received = true →
      ∀ b : BarrierState, rcv.dropRecv { inner with barrier := b } = .done) ∧
    (∀ s s' : PairState T, step s .receiverDrop = some s' →
      s'.inner = s.inner ∧ s'.receiver = none) := by
  refine ⟨?_, ?_, ?_⟩
  · intro hf
    cases hb : inner.barrier <;>
      cases hd : inner.data <;>
        simp [JoinHandleReceiver.dropRecv, JoinHandleReceiver.pop, hf, hb, hd,
          MonoBarrier.waitUnwrap]
  · intro ht b
    simp [JoinHandleReceiver.dropRecv, ht]
  · intro s s' h
    simp only [step] at h
    cases hrc : s.receiver with
    | none => simp [hrc] at h
    | some rcv0 =>
      simp only [hrc] at h
      cases hp : rcv0.dropRecv s.inner <;> simp [hp] at h
      rw [← h]
      simp

theorem claim_C2_witness :
    JoinHandleReceiver.dropRecv { received := false }
      ({ barrier := .notified, data := some (.success 0) }
        : JoinHandleInner Nat) = .done :=
  ((claim_C2_drop_waits_like_pop Nat { received := false }
      { barrier := .notified, data := some (.success 0) }).1 rfl).1.mpr rfl

/-- C3: for the receiver of `handle_pair`, popping after the paired push
has completed returns exactly the pushed outcome, with the `received` flag
set on the consumed receiver and the slot taken; and a completed pop step
consumes the receiver from the pair state. -/
theorem claim_C3_pop_returns_pushed_outcome (T : Type) (o : Outcome T)
    (inner : JoinHandleInner T) (s s' : PairState T)
    (h : step s .pop = some s') :
    (handle_pair T).2.pop (JoinHandleSender.push o inner) =
      .ok o { received := true } { barrier := .notified, data := none } ∧
    s'.receiver = none := by
  constructor
  · rfl
  · simp only [step] at h
    cases hrc : s.receiver with
    | none => simp [hrc] at h
    | some rcv0 =>
      simp only [hrc] at h
      cases hp : rcv0.pop s.inner <;> simp [hp] at h
      rw [← h]

theorem claim_C3_witness :
    JoinHandleReceiver.pop (handle_pair Nat).2
      (JoinHandleSender.push (.success 7) (JoinHandleInner.new Nat)) =
      .ok (.success 7) { received := true }
        { barrier := .notified, data := none } :=
  (claim_C3_pop_returns_pushed_outcome Nat (.success 7)
    (JoinHandleInner.new Nat)
    { inner := { barrier := .notified, data := some (.success 7) },
      senderLive := false, receiver := some { received := false } }
    { inner := { barrier := .notified, data := none },
      senderLive := false, receiver := none } (by decide)).1

/-- C4, as stated, is false on the code: `pop` ends with `data.take()`
(join_handle.rs:57), which moves the value out and puts the slot back to
empty, so the slot does transition from occupied back to empty.  Concrete
refutation: from a fresh pair, `push (success 0)` then `pop` visits a state
with an occupied slot followed by one with an empty slot. -/
theorem claim_C4_counterexample :
    ¬ (∀ ops : List (Op Nat),
        slotMonotone (statesAlong (initPair Nat) ops) = true) :=
  fun h => absurd (h [.push (.success 0), .pop]) (by decide)

/-- C4 amended: across every completed operation sequence on a pair, the
slot becomes occupied only at the single `push` (which finds it empty and
is disabled once the sender is consumed), and it goes back from occupied to
empty only at the single consuming `pop` (after which the receiver is gone
and no further pop can complete). -/
theorem claim_C4_amended_slot_transitions (T : Type) (s : PairState T)
    (op : Op T) (s' : PairState T) (hre : Reachable s)
    (h : step s op = some s') :
    ((s.inner.data = none ∧ s'.inner.data ≠ none) → ∃ r, op = .push r) ∧
    ((s.inner.data ≠ none ∧ s'.inner.data = none) → op = .pop) ∧
    (∀ r, op = .push r → s.inner.data = none ∧ s'.inner.data = some r) ∧
    (∀ r, s.senderLive = false → step s (.push r) = none) ∧
    (op = .pop → s'.receiver = none ∧ step s' .pop = none) := by
  obtain ⟨hs, hr, hn⟩ := inv_reachable s hre
  have hpushnone : ∀ r : Outcome T, s.senderLive = false →
      step s (.push r) = none := by
    intro r hl
    simp [step, hl]
  cases op with
  | push r =>
    simp only [step] at h
    by_cases hl : s.senderLive = true
    · simp [hl] at h
      obtain ⟨_, hd⟩ := hs hl
      refine ⟨fun _ => ⟨r, rfl⟩, ?_, ?_, hpushnone, by simp⟩
      · intro ⟨hne, _⟩
        exact absurd hd hne
      · intro r' hr'
        cases hr'
        refine ⟨hd, ?_⟩
        rw [← h]
        simp [JoinHandleSender.push, writeData, notifyBarrier]
    · simp at h
      exact absurd h.1 hl
  | senderDrop =>
    simp only [step] at h
    by_cases hl : s.senderLive = true
    · simp [hl] at h
      have hdata : s'.inner.data = s.inner.data := by
        rw [← h]
        simp [senderDropEffect]
        split <;> rfl
      refine ⟨?_, ?_, by simp, hpushnone, by simp⟩
      · intro ⟨hd, hne⟩
        exact absurd (hdata.trans hd) hne
      · intro ⟨hne, hd⟩
        exact absurd (hdata.symm.trans hd) hne
    · simp at h
      exact absurd h.1 hl
  | pop =>
    simp only [step] at h
    cases hrc : s.receiver with
    | none => simp [hrc] at h
    | some rcv0 =>
      simp only [hrc] at h
      cases hp : rcv0.pop s.inner with
      | ok o rcv' inner' =>
        simp [hp] at h
        unfold JoinHandleReceiver.pop at hp
        cases hb : MonoBarrier.waitUnwrap s.inner.barrier <;> simp [hb] at hp
        cases hd : s.inner.data <;> simp [hd] at hp
        refine ⟨?_, fun _ => rfl, by simp, hpushnone, ?_⟩
        · intro hprem
          exact Option.noConfusion hprem.1
        · intro _
          have hrcv' : s'.receiver = none := by rw [← h]
          exact ⟨hrcv', by simp [step, hrcv']⟩
      | blocked => simp [hp] at h
      | panicWaitBroken => simp [hp] at h
      | panicEmptySlot => simp [hp] at h
  | receiverDrop =>
    simp only [step] at h
    cases hrc : s.receiver with
    | none => simp [hrc] at h
    | some rcv0 =>
      simp only [hrc] at h
      cases hp : rcv0.dropRecv s.inner <;> simp [hp] at h
      have hdata : s'.inner.data = s.inner.data := by rw [← h]
      refine ⟨?_, ?_, by simp, hpushnone, by simp⟩
      · intro ⟨hd, hne⟩
        exact absurd (hdata.trans hd) hne
      · intro ⟨hne, hd⟩
        exact absurd (hdata.symm.trans hd) hne

theorem claim_C4_amended_witness :
    run (initPair Nat) [] = some (initPair Nat) ∧
    step (initPair Nat) (.push (.success 3)) =
      some { inner := { barrier := .notified, data := some (.success 3) },
             senderLive := false, receiver := some { received := false } } ∧
    (initPair Nat).inner.data = none :=
  ⟨rfl, by decide,
   ((claim_C4_amended_slot_transitions Nat (initPair Nat)
      (.push (.success 3))
      { inner := { barrier := .notified, data := some (.success 3) },
        senderLive := false, receiver := some { received := false } }
      ⟨[], rfl⟩ (by decide)).2.2.1
      (.success 3) rfl).1⟩

/-- C5: `Promise::sync` returns the business `Result` exactly when the
spawned work terminated normally with it, panics in the caller exactly when
the captured outcome is an abnormal termination, and a captured panic is
never folded into the `Err` channel — the three outcomes `returns (Ok t)`,
`returns (Err e)` and `panics` are mutually exclusive and each is tied to
its own cause. -/
theorem claim_C5_sync_three_outcomes (T E : Type) (p : Promise T E) :
    (Promise.sync p = .panics ↔ p.join_handle.outcome = .panicked) ∧
    (∀ r : RustResult T E,
      Promise.sync p = .returns r ↔ p.join_handle.outcome = .success r) ∧
    (∀ e : E, p.join_handle.outcome = .panicked →
      Promise.sync p ≠ .returns (.Err e)) := by
  obtain ⟨⟨o⟩⟩ := p
  cases o <;>
    simp [Promise.sync, joinUnwrapExec, JoinHandle.join]

theorem claim_C5_witness :
    Promise.sync ({ join_handle := { outcome := .success (.Ok 5) } }
      : Promise Nat Nat) = .returns (.Ok 5) ∧
    Promise.sync ({ join_handle := { outcome := .panicked } }
      : Promise Nat Nat) = .panics :=
  ⟨((claim_C5_sync_three_outcomes Nat Nat
      { join_handle := { outcome := .success (.Ok 5) } }).2.1 (.Ok 5)).mpr rfl,
   (claim_C5_sync_three_outcomes Nat Nat
      { join_handle := { outcome := .panicked } }).1.mpr rfl⟩

/-- C6: combinator routing.  On a predecessor resolved `Ok t`, `then`
resolves to `ft t` and its result does not depend on `fe`; on `Err e` it
resolves to `fe e` and does not depend on `ft`; `success f` on `Err e`
leaves `Err e` unchanged and does not depend on `f`; `fail g` on `Ok v`
leaves `Ok v` unchanged and does not depend on `g`. -/
theorem claim_C6_combinator_routing (T E TT EE : Type) (p : Promise T E)
    (ft : T → RustResult TT EE) (fe : E → RustResult TT EE)
    (f : T → RustResult TT E) (g : E → RustResult T E) :
    (∀ t, p.join_handle.outcome = .success (.Ok t) →
      (p.then_ ft fe).1.join_handle.outcome = .success (ft t) ∧
      ∀ fe' : E → RustResult TT EE, p.then_ ft fe = p.then_ ft fe') ∧
    (∀ e, p.join_handle.outcome = .success (.Err e) →
      (p.then_ ft fe).1.join_handle.outcome = .success (fe e) ∧
      ∀ ft' : T → RustResult TT EE, p.then_ ft fe = p.then_ ft' fe) ∧
    (∀ e, p.join_handle.outcome = .success (.Err e) →
      (p.success f).1.join_handle.outcome = .success (.Err e) ∧
      ∀ f' : T → RustResult TT E, p.success f = p.success f') ∧
    (∀ v, p.join_handle.outcome = .success (.Ok v) →
      (p.fail g).1.join_handle.outcome = .success (.Ok v) ∧
      ∀ g' : E → RustResult T E, p.fail g = p.fail g') := by
  refine ⟨?_, ?_, ?_, ?_⟩ <;> intro x hx <;>
    simp [Promise.then_, Promise.success, Promise.fail, joinUnwrapExec,
      JoinHandle.join, Scheduler.spawn, hx]

theorem claim_C6_witness :
    (Promise.then_ ({ join_handle := { outcome := .success (.Ok 5) } }
        : Promise Nat Nat)
      (fun t => (.Ok (t + 1) : RustResult Nat Nat))
      (fun _ => .Err 0)).1.join_handle.outcome = .success (.Ok 6) ∧
    (Promise.success ({ join_handle := { outcome := .success (.Err 9) } }
        : Promise Nat Nat)
      (fun t => (.Ok t : RustResult Nat Nat))).1.join_handle.outcome =
      .success (.Err 9) :=
  ⟨((claim_C6_combinator_routing Nat Nat Nat Nat
      { join_handle := { outcome := .success (.Ok 5) } }
      (fun t => .Ok (t + 1)) (fun _ => .Err 0)
      (fun t => .Ok t) (fun e => .Err e)).1 5 rfl).1,
   ((claim_C6_combinator_routing Nat Nat Nat Nat
      { join_handle := { outcome := .success (.Err 9) } }
      (fun t => .Ok (t + 1)) (fun _ => .Err 0)
      (fun t => .Ok t) (fun e => .Err e)).2.2.1 9 rfl).1⟩

/-- C7: when the barrier reports a broken wait (the paired sender was
destroyed without pushing, which is what turns a pending barrier broken),
`pop` panics at `wait().unwrap()` — it never returns any `Outcome` value,
so the condition is distinct from a normal abnormal-termination outcome,
which `pop` would return as `ok panicked`. -/
theorem claim_C7_broken_wait_is_fatal (T : Type) (rcv : JoinHandleReceiver)
    (inner : JoinHandleInner T) :
    (inner.barrier = .broken →
      rcv.pop inner = .panicWaitBroken ∧
      ∀ (o : Outcome T) (r : JoinHandleReceiver) (i : JoinHandleInner T),
        rcv.pop inner ≠ .ok o r i) ∧
    (inner.barrier = .pending →
      (senderDropEffect inner).barrier = .broken ∧
      rcv.pop (senderDropEffect inner) = .panicWaitBroken) := by
  constructor
  · intro hb
    simp [JoinHandleReceiver.pop, hb, MonoBarrier.waitUnwrap]
  · intro hb
    simp [senderDropEffect, hb, JoinHandleReceiver.pop, MonoBarrier.waitUnwrap]

theorem claim_C7_witness :
    JoinHandleReceiver.pop { received := false }
      ({ barrier := .broken, data := none } : JoinHandleInner Nat) =
      .panicWaitBroken :=
  ((claim_C7_broken_wait_is_fatal Nat { received := false }
      { barrier := .broken, data := none }).1 rfl).1

/-- C8: `finally` never returns control to its call site before `f` has
completed.  In the interleaving of the spawned body (run `f`, then push and
notify) with the call site's discarding drop (which waits on the discarded
handle's barrier), every completed execution in which the call site has
returned is one in which the body has already pushed — and hence already
run `f`. -/
theorem claim_C8_finally_blocks_call_site (ls : List Finally.Label)
    (s : Finally.State) (h : Finally.exec Finally.init ls = some s)
    (hret : s.caller = .returned) : s.work = .pushed :=
  Finally.exec_inv ls Finally.init s
    (fun hc => absurd hc (by simp [Finally.init])) h hret

theorem claim_C8_witness :
    Finally.exec Finally.init [.runF, .pushNotify, .dropReturns] =
      some { work := .pushed, caller := .returned } ∧
    ({ work := .pushed, caller := .returned } : Finally.State).work =
      .pushed :=
  ⟨by decide,
   claim_C8_finally_blocks_call_site [.runF, .pushNotify, .dropReturns]
     { work := .pushed, caller := .returned } (by decide) rfl⟩

/-- C9: `finally_sync` is exactly `f(self.sync())`: the combinator equals
the spec-side model that applies `f` in the caller's execution (a panic
re-raised by `sync` aborts the caller before `f`), and it performs zero
`Scheduler::spawn` calls — no new spawned unit of work. -/
theorem claim_C9_finally_sync_equiv (T E A : Type) (p : Promise T E)
    (f : RustResult T E → A) :
    Promise.finally_sync p f = finallySyncSpecModel p f ∧
    (Promise.finally_sync p f).2 = 0 := by
  obtain ⟨⟨o⟩⟩ := p
  cases o <;>
    simp [Promise.finally_sync, finallySyncSpecModel, Promise.sync,
      joinUnwrapExec, JoinHandle.join, Exec.map]

/-- C10: from any reachable pair state in which the receiver is still
alive, `pop` can never panic at `data.take().unwrap()`: whenever its
barrier wait proceeds, the slot is occupied (the empty-slot unwrap branch
is unreachable under the protocol). -/
theorem claim_C10_pop_take_never_fails (T : Type) (s : PairState T)
    (rcv : JoinHandleReceiver) (hre : Reachable s)
    (hrcv : s.receiver = some rcv) :
    rcv.pop s.inner ≠ .panicEmptySlot := by
  obtain ⟨_, _, hn⟩ := inv_reachable s hre
  cases hb : s.inner.barrier with
  | pending => simp [JoinHandleReceiver.pop, hb, MonoBarrier.waitUnwrap]
  | broken => simp [JoinHandleReceiver.pop, hb, MonoBarrier.waitUnwrap]
  | notified =>
    rcases hn hb with hd | hnone
    · cases hsome : s.inner.data with
      | none => simp [hsome] at hd
      | some o =>
        simp [JoinHandleReceiver.pop, hb, MonoBarrier.waitUnwrap, hsome]
    · rw [hnone] at hrcv
      exact Option.noConfusion hrcv

theorem claim_C10_witness :
    JoinHandleReceiver.pop { received := false }
      ({ barrier := .notified, data := some (.success 4) }
        : JoinHandleInner Nat) ≠ .panicEmptySlot :=
  claim_C10_pop_take_never_fails Nat
    { inner := { barrier := .notified, data := some (.success 4) },
      senderLive := false, receiver := some { received := false } }
    { received := false } ⟨[.push (.success 4)], by decide⟩ rfl

end Coio
